import Mathlib

/-!
# Verification of the Ramp uploader pipeline

Shallow embedding of the two source files of the repository:

* `main.py` — `export_and_upload`: reads `SERVICE_ACCOUNT_KEY`, builds
  delegated credentials, runs a fixed BigQuery query, writes the result set
  to a temporary CSV file, POSTs it to a Cloud Run endpoint, and deletes
  the temporary file after the POST.
* `sftp_upload.py` — `get_secret`, `upload_to_sftp`, `process_csv_upload`:
  fetch SFTP credentials from Secret Manager, upload a local file over
  SFTP, and the wrapper that persists a payload to `/tmp/<filename>`,
  uploads it, and cleans up.

External collaborators (BigQuery, Secret Manager, the network, the
filesystem primitives) are modelled as per-invocation environment records
giving the outcome (`Except String α` = normal return or raised exception
message) of each call the code makes.  Execution is a pure function from
the environment to a result record that also carries the final state of
the invocation's temporary file and the trace of external calls attempted.

Strings manipulated by the CSV layer are modelled as `List Char`.
-/

/-! ## CSV layer

`main.py` writes with `csv.writer` (Python default dialect: delimiter `,`,
quotechar `"`, doublequote, `QUOTE_MINIMAL`, lineterminator `"\r\n"`).
A field is quoted iff it contains the delimiter, the quote character, or a
line-terminator character; quotes are doubled inside quoted fields.
-/

abbrev Str := List Char

/-- Python `csv` QUOTE_MINIMAL test: quote a field iff it contains the
delimiter, the quote char, or a lineterminator character. -/
def needsQuote (s : Str) : Bool :=
  s.any (fun c => c = ',' || c = '"' || c = '\r' || c = '\n')

/-- Double every quote character (Python `doublequote=True`). -/
def escQ : Str → Str
  | [] => []
  | c :: cs => if c = '"' then '"' :: '"' :: escQ cs else c :: escQ cs

/-- Encode one field as `csv.writer` does under QUOTE_MINIMAL. -/
def encField (s : Str) : Str :=
  if needsQuote s then '"' :: (escQ s ++ ['"']) else s

/-- Join encoded fields with the delimiter. -/
def joinComma : List Str → Str
  | [] => []
  | [f] => f
  | f :: fs => f ++ ',' :: joinComma fs

/-- One record as written by `csv.writer.writerow`: delimiter-joined encoded
fields followed by the CRLF line terminator. -/
def encRecord (r : List Str) : Str :=
  joinComma (r.map encField) ++ ['\r', '\n']

/-- Concatenation of a list of character lists. -/
def concatAll : List Str → Str
  | [] => []
  | s :: t => s ++ concatAll t

/-- Standard delimited-text (RFC-4180-style) reader, as a single scanner.
State: remaining input, inside-quotes flag, current field, current record
(fields finished so far), records finished so far.  A CRLF (or lone CR/LF)
outside quotes terminates a record; a quote char opens a quoted field only
at field start; a doubled quote inside a quoted field is a literal quote. -/
def csvScan : Str → Bool → Str → List Str → List (List Str) → List (List Str)
  | [], q, f, r, out =>
      if q then out ++ [r ++ [f]]
      else if r = [] ∧ f = [] then out else out ++ [r ++ [f]]
  | c :: cs, q, f, r, out =>
      if q then
        if c = '"' then
          match cs with
          | c2 :: cs2 =>
              if c2 = '"' then csvScan cs2 true (f ++ ['"']) r out
              else csvScan (c2 :: cs2) false f r out
          | [] => csvScan [] false f r out
        else csvScan cs true (f ++ [c]) r out
      else
        if c = '"' then
          if f = [] then csvScan cs true f r out
          else csvScan cs false (f ++ [c]) r out
        else if c = ',' then csvScan cs false [] (r ++ [f]) out
        else if c = '\r' then
          match cs with
          | c2 :: cs2 =>
              if c2 = '\n' then csvScan cs2 false [] [] (out ++ [r ++ [f]])
              else csvScan (c2 :: cs2) false [] [] (out ++ [r ++ [f]])
          | [] => csvScan [] false [] [] (out ++ [r ++ [f]])
        else if c = '\n' then csvScan cs false [] [] (out ++ [r ++ [f]])
        else csvScan cs false (f ++ [c]) r out

/-- Parse a CSV text into its records. -/
def parseCsv (s : Str) : List (List Str) := csvScan s false [] [] []

/-! ### Scanner lemmas -/

theorem needsQuote_false {s : Str} (h : needsQuote s = false) :
    ∀ c ∈ s, c ≠ ',' ∧ c ≠ '"' ∧ c ≠ '\r' ∧ c ≠ '\n' := by
  intro c hc
  have h2 := List.any_eq_false.mp h c hc
  simp only [Bool.or_eq_true, decide_eq_true_eq] at h2
  push_neg at h2
  tauto

/-! Step lemmas, one per head shape of the scanner. -/

theorem scan_step_plain {c : Char} (cs : Str) (f : Str) (r : List Str)
    (out : List (List Str)) (h1 : c ≠ ',') (h2 : c ≠ '"') (h3 : c ≠ '\r')
    (h4 : c ≠ '\n') :
    csvScan (c :: cs) false f r out = csvScan cs false (f ++ [c]) r out := by
  rw [csvScan.eq_def]
  simp [h1, h2, h3, h4]

theorem scan_step_comma (cs : Str) (f : Str) (r : List Str)
    (out : List (List Str)) :
    csvScan (',' :: cs) false f r out = csvScan cs false [] (r ++ [f]) out := by
  rw [csvScan.eq_def]
  simp

theorem scan_step_crlf (cs : Str) (f : Str) (r : List Str)
    (out : List (List Str)) :
    csvScan ('\r' :: '\n' :: cs) false f r out
      = csvScan cs false [] [] (out ++ [r ++ [f]]) := by
  rw [csvScan.eq_def]
  simp

theorem scan_step_open (cs : Str) (r : List Str) (out : List (List Str)) :
    csvScan ('"' :: cs) false [] r out = csvScan cs true [] r out := by
  rw [csvScan.eq_def]
  simp

theorem scan_step_qchar {c : Char} (cs : Str) (f : Str) (r : List Str)
    (out : List (List Str)) (hc : c ≠ '"') :
    csvScan (c :: cs) true f r out = csvScan cs true (f ++ [c]) r out := by
  rw [csvScan.eq_def]
  simp [hc]

theorem scan_step_qq (cs : Str) (f : Str) (r : List Str)
    (out : List (List Str)) :
    csvScan ('"' :: '"' :: cs) true f r out
      = csvScan cs true (f ++ ['"']) r out := by
  rw [csvScan.eq_def]
  simp

theorem scan_step_qclose {c : Char} (cs : Str) (f : Str) (r : List Str)
    (out : List (List Str)) (hc : c ≠ '"') :
    csvScan ('"' :: c :: cs) true f r out
      = csvScan (c :: cs) false f r out := by
  rw [csvScan.eq_def]
  simp [hc]

theorem scan_nil (out : List (List Str)) : csvScan [] false [] [] out = out := by
  rw [csvScan.eq_def]
  simp

/-- Scanning a run of ordinary characters just extends the current field. -/
theorem scan_plain (s : Str) (rest : Str) (f : Str) (r : List Str)
    (out : List (List Str))
    (h : ∀ c ∈ s, c ≠ ',' ∧ c ≠ '"' ∧ c ≠ '\r' ∧ c ≠ '\n') :
    csvScan (s ++ rest) false f r out = csvScan rest false (f ++ s) r out := by
  induction s generalizing f with
  | nil => simp
  | cons a s ih =>
    obtain ⟨h1, h2, h3, h4⟩ := h a (by simp)
    have hrest : ∀ c ∈ s, c ≠ ',' ∧ c ≠ '"' ∧ c ≠ '\r' ∧ c ≠ '\n' :=
      fun c hc => h c (by simp [hc])
    show csvScan (a :: (s ++ rest)) false f r out = _
    rw [scan_step_plain _ _ _ _ h1 h2 h3 h4, ih (f ++ [a]) hrest]
    simp

/-- Scanning the escaped body of a quoted field, then the closing quote,
returns to unquoted state with the field extended by the raw body.  The
character after the closing quote must not be a quote (in writer output it
is a delimiter or CR). -/
theorem scan_quoted (s : Str) (c : Char) (rest : Str) (f : Str)
    (r : List Str) (out : List (List Str)) (hc : c ≠ '"') :
    csvScan (escQ s ++ '"' :: c :: rest) true f r out
      = csvScan (c :: rest) false (f ++ s) r out := by
  induction s generalizing f with
  | nil =>
    show csvScan ('"' :: c :: rest) true f r out = _
    rw [scan_step_qclose _ _ _ _ hc]
    simp
  | cons a s ih =>
    by_cases ha : a = '"'
    · subst ha
      show csvScan (escQ ('"' :: s) ++ '"' :: c :: rest) true f r out = _
      have he : escQ ('"' :: s) = '"' :: '"' :: escQ s := by
        rw [escQ]
        simp
      rw [he]
      show csvScan ('"' :: '"' :: (escQ s ++ '"' :: c :: rest)) true f r out = _
      rw [scan_step_qq, ih (f ++ ['"'])]
      simp
    · have he : escQ (a :: s) = a :: escQ s := by
        rw [escQ]
        simp [ha]
      rw [he]
      show csvScan (a :: (escQ s ++ '"' :: c :: rest)) true f r out = _
      rw [scan_step_qchar _ _ _ _ ha, ih (f ++ [a])]
      simp

/-- Scanning one encoded field, stopped at a following delimiter or CR,
recovers the raw field. -/
theorem scan_field (fl : Str) (c : Char) (rest : Str) (r : List Str)
    (out : List (List Str)) (hc : c = ',' ∨ c = '\r') :
    csvScan (encField fl ++ c :: rest) false [] r out
      = csvScan (c :: rest) false fl r out := by
  have hcq : c ≠ '"' := by
    rcases hc with h | h <;> subst h <;> decide
  by_cases hq : needsQuote fl
  · have he : encField fl = '"' :: (escQ fl ++ ['"']) := by
      rw [encField, if_pos hq]
    rw [he]
    have hsh : ('"' :: (escQ fl ++ ['"'])) ++ c :: rest
        = '"' :: (escQ fl ++ '"' :: c :: rest) := by simp
    rw [hsh, scan_step_open, scan_quoted fl c rest [] r out hcq]
    simp
  · have he : encField fl = fl := by
      rw [encField, if_neg hq]
    rw [he,
      scan_plain fl (c :: rest) [] r out
        (needsQuote_false (Bool.eq_false_iff.mpr hq))]
    simp

/-- Scanning a nonempty encoded record followed by CRLF appends the raw
record (prefixed by the fields already accumulated) to the output. -/
theorem scan_record (l : List Str) (hl : l ≠ []) (racc : List Str)
    (rest : Str) (out : List (List Str)) :
    csvScan (joinComma (l.map encField) ++ '\r' :: '\n' :: rest) false [] racc out
      = csvScan rest false [] [] (out ++ [racc ++ l]) := by
  induction l generalizing racc with
  | nil => exact absurd rfl hl
  | cons fl l ih =>
    cases l with
    | nil =>
      have hj : joinComma ([fl].map encField) = encField fl := by
        simp [joinComma]
      rw [hj, scan_field fl '\r' ('\n' :: rest) racc out (Or.inr rfl),
        scan_step_crlf]
    | cons fl2 l2 =>
      have hj : joinComma ((fl :: fl2 :: l2).map encField)
          = encField fl ++ ',' :: joinComma ((fl2 :: l2).map encField) := by
        simp [joinComma]
      rw [hj]
      have hsh : (encField fl ++ ',' :: joinComma ((fl2 :: l2).map encField))
            ++ '\r' :: '\n' :: rest
          = encField fl
            ++ ',' :: (joinComma ((fl2 :: l2).map encField) ++ '\r' :: '\n' :: rest) := by
        simp
      rw [hsh, scan_field fl ',' _ racc out (Or.inl rfl), scan_step_comma,
        ih (by simp) (racc ++ [fl])]
      simp

/-- Scanning the concatenation of nonempty encoded records appends all the
raw records to the output. -/
theorem scan_records (recs : List (List Str)) (h : ∀ r ∈ recs, r ≠ [])
    (out : List (List Str)) :
    csvScan (concatAll (recs.map encRecord)) false [] [] out = out ++ recs := by
  induction recs generalizing out with
  | nil =>
    show csvScan [] false [] [] out = out ++ []
    rw [scan_nil]
    simp
  | cons r t ih =>
    have hc : concatAll ((r :: t).map encRecord)
        = joinComma (r.map encField)
          ++ '\r' :: '\n' :: concatAll (t.map encRecord) := by
      show encRecord r ++ concatAll (t.map encRecord) = _
      rw [encRecord]
      simp
    rw [hc, scan_record r (h r (by simp)) [] _ out,
      ih (fun x hx => h x (by simp [hx]))]
    simp

/-! ## Export Stage file construction (`main.py` lines 57–76)

`column_names = [field.name for field in results.schema]` gives the column
order; the loop writes the header row and then, per result row,
`[row[column] for column in column_names]`.  A result row is modelled as a
total map from column name to (stringified) value, a `Str → Str`. -/

/-- Projection `[row[column] for column in column_names]` — a result row onto
the schema's column order. -/
def projRow (cols : List Str) (row : Str → Str) : List Str := cols.map row

/-- The full text written to the export temp file: header row, then one
record per result row, in result order (the `for row in results` loop). -/
def exportCsv (cols : List Str) (rows : List (Str → Str)) : Str :=
  rows.foldl (fun acc row => acc ++ encRecord (projRow cols row)) (encRecord cols)

/-- The `row_count += 1` loop of `main.py` lines 68–73. -/
def countRows (rows : List (Str → Str)) : Nat :=
  rows.foldl (fun n _ => n + 1) 0

theorem countRows_eq_length (rows : List (Str → Str)) :
    countRows rows = rows.length := by
  have h : ∀ (l : List (Str → Str)) (n : Nat),
      l.foldl (fun m _ => m + 1) n = n + l.length := by
    intro l
    induction l with
    | nil => simp
    | cons a t ih =>
      intro n
      simp only [List.foldl_cons, List.length_cons, ih]
      omega
  simpa [countRows] using h rows 0

theorem exportCsv_eq_concat (cols : List Str) (rows : List (Str → Str)) :
    exportCsv cols rows
      = concatAll ((cols :: rows.map (projRow cols)).map encRecord) := by
  have h : ∀ (l : List (Str → Str)) (acc : Str),
      l.foldl (fun acc row => acc ++ encRecord (projRow cols row)) acc
        = acc ++ concatAll ((l.map (projRow cols)).map encRecord) := by
    intro l
    induction l with
    | nil => simp [concatAll]
    | cons a t ih =>
      intro acc
      simp only [List.foldl_cons, List.map_cons, concatAll, ih]
      simp
  simpa [exportCsv, concatAll] using h rows (encRecord cols)

/-- Round trip of the export file through the reader: with at least one
schema column, parsing recovers the header and every projected row, every
field value intact. -/
theorem parse_exportCsv (cols : List Str) (rows : List (Str → Str))
    (h : cols ≠ []) :
    parseCsv (exportCsv cols rows) = cols :: rows.map (projRow cols) := by
  rw [exportCsv_eq_concat, parseCsv,
    scan_records (cols :: rows.map (projRow cols)) ?_ []]
  · simp
  · intro r hr
    rcases List.mem_cons.mp hr with h1 | h1
    · exact h1 ▸ h
    · obtain ⟨row, _, hrow⟩ := List.mem_map.mp h1
      intro hnil
      apply h
      have : cols.length = 0 := by
        rw [← hrow] at hnil
        simpa [projRow] using congrArg List.length hnil
      exact List.length_eq_zero.mp this

/-! ## `main.py` — `export_and_upload`

The function body is one big `try` whose `except Exception` clause returns
`(f"Error: {str(e)}\n\nDetails: {traceback.format_exc()}", 500)`.  Each
external call is an environment field holding its outcome for this
invocation; `Except.error e` means the call raised an exception whose
`str` is `e`. -/

/-- External calls `export_and_upload` can attempt, in order of occurrence:
reading the environment variable, the BigQuery query, creating the temp
file, the HTTP POST, unlinking the temp file. -/
inductive MEv where
  | envRead
  | queryCall
  | tempCreate
  | postCall
  | tempUnlink
  deriving DecidableEq, Repr

/-- Per-invocation outcomes of the external calls made by
`export_and_upload` (`main.py` lines 21–82). -/
structure MainEnv where
  /-- Value of `os.environ.get('SERVICE_ACCOUNT_KEY')`: `none` = unset. -/
  serviceAccountKey : Option String
  /-- Outcome of `base64.b64decode(encoded_key).decode('utf-8')` on the key. -/
  b64decode : Except String String
  /-- Outcome of `json.loads` + `from_service_account_info` + `with_subject` +
  `bigquery.Client(...)` — the in-memory credential/client construction. -/
  credsFromInfo : Except String Unit
  /-- Outcome of `client.query(query)` + `query_job.result()`: the result set as
  (schema column names, rows), or the raised exception. -/
  queryRun : Except String (List Str × List (Str → Str))
  /-- Outcome of `requests.post(CLOUD_RUN_URL, files=files)`: `(status_code, text)` of
  the response, or the raised exception. -/
  postResult : Except String (Nat × String)
  /-- Value of `traceback.format_exc()` in the handler. -/
  tracebackText : String

/-- Result of one invocation: HTTP-style response plus the final state of
the export temp file and the trace of calls attempted. -/
structure MainOut where
  body : String
  status : Nat
  /-- Does the export temp file still exist when the invocation returns? -/
  tempExists : Bool
  /-- Full content written to the export temp file, if it was created. -/
  written : Option Str
  events : List MEv
  deriving Repr

/-- Python truthiness test `if not encoded_key` (lines 22–23): falsy when
the variable is unset or the empty string. -/
def keyPresent : Option String → Bool
  | none => false
  | some s => !(s == "")

/-- The body built by the `except` handler (line 95). -/
def errorBody (env : MainEnv) (e : String) : String :=
  "Error: " ++ e ++ "\n\nDetails: " ++ env.tracebackText

/-- Shallow embedding of `export_and_upload` (`main.py` lines 17–95). -/
def export_and_upload (env : MainEnv) : MainOut :=
  if keyPresent env.serviceAccountKey then
    match env.b64decode with
    | .error e =>
        { body := errorBody env e, status := 500, tempExists := false,
          written := none, events := [.envRead] }
    | .ok _ =>
      match env.credsFromInfo with
      | .error e =>
          { body := errorBody env e, status := 500, tempExists := false,
            written := none, events := [.envRead] }
      | .ok _ =>
        match env.queryRun with
        | .error e =>
            { body := errorBody env e, status := 500, tempExists := false,
              written := none, events := [.envRead, .queryCall] }
        | .ok (cols, rows) =>
          let content := exportCsv cols rows
          let rowCount := countRows rows
          match env.postResult with
          | .error e =>
              -- `requests.post` raised: the handler returns without
              -- reaching the `os.unlink` on line 85.
              { body := errorBody env e, status := 500, tempExists := true,
                written := some content,
                events := [.envRead, .queryCall, .tempCreate, .postCall] }
          | .ok (code, text) =>
            if code = 200 then
              { body := "Successfully exported " ++ toString rowCount
                    ++ " rows and uploaded to RAMP Data Upload",
                status := 200, tempExists := false, written := some content,
                events := [.envRead, .queryCall, .tempCreate, .postCall,
                  .tempUnlink] }
            else
              { body := "Error uploading to Cloud Run: " ++ text,
                status := 500, tempExists := false, written := some content,
                events := [.envRead, .queryCall, .tempCreate, .postCall,
                  .tempUnlink] }
  else
    { body := errorBody env
        "SERVICE_ACCOUNT_KEY environment variable is not set",
      status := 500, tempExists := false, written := none,
      events := [.envRead] }

/-! ## `sftp_upload.py` — `upload_to_sftp`

The four `get_secret` calls, the transport/session setup, `chdir`, `put`
and the closes.  `sftp.chdir` is wrapped in its own `try/except IOError`,
so its outcome is three-valued; everything else that raises is caught by
the outermost `except Exception`, which returns `False`. -/

/-- External calls `upload_to_sftp` and `process_csv_upload` can attempt. -/
inductive SEv where
  | secretFetch (name : String)
  | transportOpen
  | transportConn
  | sftpSession
  | chdirCall
  | putCall
  | sftpCloseEv
  | transportCloseEv
  deriving DecidableEq, Repr

/-- Outcome of `sftp.chdir(sftp_directory)` (line 28): success, an
`IOError` (caught by the inner handler, lines 29–32), or any other
exception (falls through to the outer handler). -/
inductive ChdirRes where
  | ok
  | ioErr (msg : String)
  | otherErr (msg : String)
  deriving DecidableEq, Repr

/-- Per-invocation outcomes of the external calls made by
`upload_to_sftp` (`sftp_upload.py` lines 13–47). -/
structure SftpEnv where
  /-- Outcome of `get_secret(project_id, "SFTP_HOST")`. -/
  secretHost : Except String String
  /-- Outcome of `get_secret(project_id, "SFTP_USERNAME")`. -/
  secretUser : Except String String
  /-- Outcome of `get_secret(project_id, "SFTP_PASSWORD")`. -/
  secretPass : Except String String
  /-- Outcome of `get_secret(project_id, "SFTP_DIRECTORY")`. -/
  secretDir : Except String String
  /-- Outcome of `paramiko.Transport((sftp_host, 22))`. -/
  transportInit : Except String Unit
  /-- Outcome of `transport.connect(username=..., password=...)`. -/
  transportConnect : Except String Unit
  /-- Outcome of `paramiko.SFTPClient.from_transport(transport)`. -/
  sftpFromTransport : Except String Unit
  /-- Outcome of `sftp.chdir(sftp_directory)`. -/
  chdirRes : ChdirRes
  /-- Outcome of `sftp.put(local_file_path, remote_path)`. -/
  putRes : Except String Unit

/-- The trace prefix after the four successful secret fetches. -/
def secretTrace : List SEv :=
  [.secretFetch "SFTP_HOST", .secretFetch "SFTP_USERNAME",
   .secretFetch "SFTP_PASSWORD", .secretFetch "SFTP_DIRECTORY"]

/-- Shallow embedding of `upload_to_sftp`: returned boolean plus the trace
of calls attempted.  Every raising outcome not handled by the inner
`except IOError` falls to the outer `except Exception`, which logs and
returns `False` without closing anything. -/
def upload_to_sftp (env : SftpEnv) : Bool × List SEv :=
  match env.secretHost with
  | .error _ => (false, [.secretFetch "SFTP_HOST"])
  | .ok _ =>
  match env.secretUser with
  | .error _ => (false, [.secretFetch "SFTP_HOST", .secretFetch "SFTP_USERNAME"])
  | .ok _ =>
  match env.secretPass with
  | .error _ => (false, [.secretFetch "SFTP_HOST", .secretFetch "SFTP_USERNAME",
      .secretFetch "SFTP_PASSWORD"])
  | .ok _ =>
  match env.secretDir with
  | .error _ => (false, secretTrace)
  | .ok _ =>
  match env.transportInit with
  | .error _ => (false, secretTrace ++ [.transportOpen])
  | .ok _ =>
  match env.transportConnect with
  | .error _ => (false, secretTrace ++ [.transportOpen, .transportConn])
  | .ok _ =>
  match env.sftpFromTransport with
  | .error _ => (false, secretTrace ++ [.transportOpen, .transportConn,
      .sftpSession])
  | .ok _ =>
  match env.chdirRes with
  | .ioErr _ =>
      -- inner handler: log, `transport.close()`, `return False`
      (false, secretTrace ++ [.transportOpen, .transportConn, .sftpSession,
        .chdirCall, .transportCloseEv])
  | .otherErr _ =>
      -- not an IOError: outer handler, no close
      (false, secretTrace ++ [.transportOpen, .transportConn, .sftpSession,
        .chdirCall])
  | .ok =>
  match env.putRes with
  | .error _ =>
      -- `sftp.put` raised: outer handler, no close
      (false, secretTrace ++ [.transportOpen, .transportConn, .sftpSession,
        .chdirCall, .putCall])
  | .ok _ =>
      (true, secretTrace ++ [.transportOpen, .transportConn, .sftpSession,
        .chdirCall, .putCall, .sftpCloseEv, .transportCloseEv])

/-! ## `sftp_upload.py` — `process_csv_upload`

`data` is either raw bytes or a byte-readable stream (modelled by the
outcome of its full `read()`).  The local file is `/tmp/<filename>`;
`open(temp_path, "wb")` creates it (empty) when it succeeds, `f.write`
fills it.  `os.remove` outcomes are environment fields: `removeFirst` for
the cleanup on line 66 and `removeSecond` for the one in the `except`
handler on line 76 — if the latter raises, nothing catches it. -/

/-- The `data: Union[bytes, BinaryIO]` argument.  A stream is modelled by
what its full `read()` yields (or raises). -/
inductive Payload where
  | bytes (b : Str)
  | stream (readRes : Except String Str)

/-- The `{"status": ..., "message": ...}` dict returned by
`process_csv_upload`. -/
structure UploadResult where
  status : String
  message : String
  deriving DecidableEq, Repr

/-- Per-invocation outcomes of the local filesystem calls made by
`process_csv_upload`, plus the environment of the nested
`upload_to_sftp` call. -/
structure ProcEnv where
  sftp : SftpEnv
  /-- Outcome of `open(temp_path, "wb")`: on success the file exists (empty). -/
  openRes : Except String Unit
  /-- Outcome of `f.write(...)`. -/
  writeRes : Except String Unit
  /-- Outcome of `os.remove(temp_path)` on the normal path (line 66). -/
  removeFirst : Except String Unit
  /-- Outcome of `os.remove(f"/tmp/{filename}")` inside the `except` handler
  (line 76). -/
  removeSecond : Except String Unit

/-- Result of one `process_csv_upload` invocation: the returned dict (or
`Except.error e` when an exception escapes the function), whether
`/tmp/<filename>` still exists, and the content written to it (history,
kept even after deletion). -/
structure ProcOut where
  result : Except String UploadResult
  fileExists : Bool
  written : Option Str

/-- The `except Exception as e` handler (lines 73–77): log, remove the
local file if it exists, return the error dict.  If that `os.remove`
itself raises, the new exception propagates out of the function. -/
def handleExn (env : ProcEnv) (e : String) (fex : Bool) (w : Option Str) :
    ProcOut :=
  if fex then
    match env.removeSecond with
    | .error e2 => { result := .error e2, fileExists := true, written := w }
    | .ok _ => { result := .ok ⟨"error", e⟩, fileExists := false, written := w }
  else
    { result := .ok ⟨"error", e⟩, fileExists := false, written := w }

/-- Lines 62–71: the `upload_to_sftp` call, the cleanup, and the returned
dict, entered with the file fully written. -/
def afterWrite (env : ProcEnv) (filename : String) (b : Str) : ProcOut :=
  let success := (upload_to_sftp env.sftp).1
  match env.removeFirst with
  | .error e => handleExn env e true (some b)
  | .ok _ =>
    if success then
      { result := .ok ⟨"success", "File " ++ filename ++ " uploaded successfully"⟩,
        fileExists := false, written := some b }
    else
      { result := .ok ⟨"error", "Failed to upload file"⟩,
        fileExists := false, written := some b }

/-- Shallow embedding of `process_csv_upload` (`sftp_upload.py`
lines 49–77). -/
def process_csv_upload (env : ProcEnv) (data : Payload) (filename : String) :
    ProcOut :=
  match env.openRes with
  | .error e => handleExn env e false none
  | .ok _ =>
    match data with
    | .bytes b =>
      match env.writeRes with
      | .error e => handleExn env e true (some [])
      | .ok _ => afterWrite env filename b
    | .stream rd =>
      match rd with
      | .error e => handleExn env e true (some [])
      | .ok b =>
        match env.writeRes with
        | .error e => handleExn env e true (some [])
        | .ok _ => afterWrite env filename b

/-- The exception (if any) that reaches the `except` handler of
`process_csv_upload` for a given environment and payload. -/
def raisedMsg (env : ProcEnv) (data : Payload) : Option String :=
  match env.openRes with
  | .error e => some e
  | .ok _ =>
    match data with
    | .bytes _ =>
      match env.writeRes with
      | .error e => some e
      | .ok _ =>
        match env.removeFirst with
        | .error e => some e
        | .ok _ => none
    | .stream rd =>
      match rd with
      | .error e => some e
      | .ok _ =>
        match env.writeRes with
        | .error e => some e
        | .ok _ =>
          match env.removeFirst with
          | .error e => some e
          | .ok _ => none

/-! ## Cleanup helper lemmas -/

/-- Whenever `requests.post` returns (any status), the export temp file is
deleted before `export_and_upload` returns. -/
theorem exportTempDeleted (env : MainEnv) (p : Nat × String)
    (hp : env.postResult = Except.ok p) :
    (export_and_upload env).tempExists = false := by
  unfold export_and_upload
  by_cases hk : keyPresent env.serviceAccountKey = true
  · rw [if_pos hk]
    cases env.b64decode with
    | error e => rfl
    | ok k =>
      cases env.credsFromInfo with
      | error e => rfl
      | ok u =>
        cases env.queryRun with
        | error e => rfl
        | ok v =>
          obtain ⟨cols, rows⟩ := v
          rw [hp]
          obtain ⟨code, text⟩ := p
          by_cases h200 : code = 200
          · simp only [h200, if_pos]
          · simp only [if_neg h200]
  · rw [if_neg hk]

theorem handleExn_fileExists (env : ProcEnv) (e : String) (fex : Bool)
    (w : Option Str) (r : UploadResult)
    (h : (handleExn env e fex w).result = Except.ok r) :
    (handleExn env e fex w).fileExists = false := by
  cases fex with
  | false => rfl
  | true =>
    cases hrs : env.removeSecond with
    | error e2 =>
      simp only [handleExn, if_pos, hrs] at h
      simp at h
    | ok u =>
      simp only [handleExn, if_pos, hrs]

theorem afterWrite_fileExists (env : ProcEnv) (fn : String) (b : Str)
    (r : UploadResult) (h : (afterWrite env fn b).result = Except.ok r) :
    (afterWrite env fn b).fileExists = false := by
  simp only [afterWrite] at h ⊢
  cases hrf : env.removeFirst with
  | error e =>
    rw [hrf] at h
    dsimp only at h ⊢
    exact handleExn_fileExists env e true (some b) r h
  | ok u =>
    dsimp only
    by_cases hs : (upload_to_sftp env.sftp).1 = true
    · rw [if_pos hs]
    · rw [if_neg hs]

/-- Whenever `process_csv_upload` returns (rather than raising),
`/tmp/<filename>` no longer exists. -/
theorem procTempDeleted (env : ProcEnv) (data : Payload) (fn : String)
    (r : UploadResult)
    (h : (process_csv_upload env data fn).result = Except.ok r) :
    (process_csv_upload env data fn).fileExists = false := by
  simp only [process_csv_upload] at h ⊢
  cases ho : env.openRes with
  | error e =>
    rw [ho] at h
    dsimp only at h ⊢
    exact handleExn_fileExists env e false none r h
  | ok u =>
    rw [ho] at h
    dsimp only at h ⊢
    cases data with
    | bytes b =>
      cases hw : env.writeRes with
      | error e =>
        rw [hw] at h
        dsimp only at h ⊢
        exact handleExn_fileExists env e true (some []) r h
      | ok u2 =>
        rw [hw] at h
        dsimp only at h ⊢
        exact afterWrite_fileExists env fn b r h
    | stream rd =>
      cases rd with
      | error e =>
        dsimp only at h ⊢
        exact handleExn_fileExists env e true (some []) r h
      | ok b =>
        cases hw : env.writeRes with
        | error e =>
          rw [hw] at h
          dsimp only at h ⊢
          exact handleExn_fileExists env e true (some []) r h
        | ok u2 =>
          rw [hw] at h
          dsimp only at h ⊢
          exact afterWrite_fileExists env fn b r h

/-! ## Concrete environments for witnesses and counterexamples -/

/-- A fully successful SFTP environment. -/
def okSftpEnv : SftpEnv :=
  { secretHost := .ok "sftp.example.com", secretUser := .ok "ramp",
    secretPass := .ok "pw", secretDir := .ok "/inbound",
    transportInit := .ok (), transportConnect := .ok (),
    sftpFromTransport := .ok (), chdirRes := .ok, putRes := .ok () }

/-- The spec's scenario result set: columns `id`,`name`; three rows, the
third name containing a comma. -/
def scCols : List Str := ["id".data, "name".data]

def scRow1 : Str → Str := fun c => if c = "id".data then "1".data else "Alice".data

def scRow2 : Str → Str := fun c => if c = "id".data then "2".data else "Bob".data

def scRow3 : Str → Str :=
  fun c => if c = "id".data then "3".data else "Smith, J.".data

def scRows : List (Str → Str) := [scRow1, scRow2, scRow3]

/-- A fully successful `export_and_upload` environment carrying the
scenario result set. -/
def okMainEnv : MainEnv :=
  { serviceAccountKey := some "a2V5LWpzb24=", b64decode := .ok "key-json",
    credsFromInfo := .ok (), queryRun := .ok (scCols, scRows),
    postResult := .ok (200, "ok"), tracebackText := "Traceback" }

/-- Same environment, but `requests.post` raises. -/
def leakMainEnv : MainEnv :=
  { okMainEnv with postResult := .error "connection reset by peer" }

/-- A fully successful `process_csv_upload` environment. -/
def okProcEnv : ProcEnv :=
  { sftp := okSftpEnv, openRes := .ok (), writeRes := .ok (),
    removeFirst := .ok (), removeSecond := .ok () }

/-- Both `os.remove` calls raise: the cleanup in the `try` body and then
the one in the `except` handler. -/
def doubleFaultEnv : ProcEnv :=
  { sftp := okSftpEnv, openRes := .ok (), writeRes := .ok (),
    removeFirst := .error "remove failed", removeSecond := .error "remove failed again" }

/-- Reduction of `export_and_upload` on any environment in which every step
up to the POST succeeds and the POST returns a response. -/
theorem export_run_ok (env : MainEnv) (k : String) (cols : List Str)
    (rows : List (Str → Str)) (code : Nat) (text : String)
    (hk : keyPresent env.serviceAccountKey = true)
    (hd : env.b64decode = Except.ok k)
    (hc : env.credsFromInfo = Except.ok ())
    (hq : env.queryRun = Except.ok (cols, rows))
    (hp : env.postResult = Except.ok (code, text)) :
    export_and_upload env =
      if code = 200 then
        { body := "Successfully exported " ++ toString (countRows rows)
              ++ " rows and uploaded to RAMP Data Upload",
          status := 200, tempExists := false,
          written := some (exportCsv cols rows),
          events := [.envRead, .queryCall, .tempCreate, .postCall, .tempUnlink] }
      else
        { body := "Error uploading to Cloud Run: " ++ text, status := 500,
          tempExists := false, written := some (exportCsv cols rows),
          events := [.envRead, .queryCall, .tempCreate, .postCall, .tempUnlink] } := by
  unfold export_and_upload
  rw [if_pos hk, hd, hc, hq, hp]

/-! ## Claims -/

/-- Claim C1, counterexample.  In an invocation in which every step up to
the POST succeeds and then `requests.post` raises, `export_and_upload`
returns a 500 response with the export temp file NOT deleted: the
`except` handler on `main.py` line 93 returns without ever reaching the
`os.unlink` on line 85. -/
theorem export_temp_leak_cex :
    (export_and_upload leakMainEnv).status = 500
    ∧ (export_and_upload leakMainEnv).tempExists = true := by
  constructor <;> rfl

/-- Claim C1 (amended): every temporary file created during an invocation
is deleted by the time the invocation returns, EXCEPT that
`export_and_upload` leaks its export temp file when a downstream call
raises after the file is created (e.g. `requests.post` raising): whenever
the POST returns a response (any status) the export temp file is deleted,
and `process_csv_upload` deletes `/tmp/<filename>` on every path on which
it returns. -/
theorem temp_cleanup_amended :
    (∀ (env : MainEnv) (p : Nat × String), env.postResult = Except.ok p →
      (export_and_upload env).tempExists = false)
    ∧ (∀ (env : ProcEnv) (data : Payload) (fn : String) (r : UploadResult),
        (process_csv_upload env data fn).result = Except.ok r →
        (process_csv_upload env data fn).fileExists = false) :=
  ⟨exportTempDeleted, procTempDeleted⟩

theorem temp_cleanup_amended_witness :
    okMainEnv.postResult = Except.ok (200, "ok")
    ∧ (export_and_upload okMainEnv).tempExists = false
    ∧ (process_csv_upload okProcEnv (Payload.bytes "x".data) "report.csv").fileExists
        = false :=
  ⟨rfl, temp_cleanup_amended.1 okMainEnv (200, "ok") rfl,
   temp_cleanup_amended.2 okProcEnv (Payload.bytes "x".data) "report.csv"
     ⟨"success", "File report.csv uploaded successfully"⟩ rfl⟩

/-- Claim C2: for a result set with schema `cols` (at least one column)
and rows `rows`, the export file contains exactly one header record
followed by the data records in result order, each record has exactly
`cols.length` fields in schema order, and the success message reports
`rows.length` rows. -/
theorem export_file_shape (env : MainEnv) (k : String) (cols : List Str)
    (rows : List (Str → Str)) (text : String)
    (hcols : cols ≠ [])
    (hk : keyPresent env.serviceAccountKey = true)
    (hd : env.b64decode = Except.ok k)
    (hc : env.credsFromInfo = Except.ok ())
    (hq : env.queryRun = Except.ok (cols, rows))
    (hp : env.postResult = Except.ok (200, text)) :
    (export_and_upload env).written = some (exportCsv cols rows)
    ∧ parseCsv (exportCsv cols rows) = cols :: rows.map (projRow cols)
    ∧ (parseCsv (exportCsv cols rows)).length = 1 + rows.length
    ∧ (∀ rec ∈ parseCsv (exportCsv cols rows), rec.length = cols.length)
    ∧ (export_and_upload env).body
        = "Successfully exported " ++ toString rows.length
          ++ " rows and uploaded to RAMP Data Upload" := by
  have hrun := export_run_ok env k cols rows 200 text hk hd hc hq hp
  rw [if_pos rfl] at hrun
  have hparse := parse_exportCsv cols rows hcols
  refine ⟨by rw [hrun], hparse, ?_, ?_, ?_⟩
  · rw [hparse]
    simp [Nat.add_comm]
  · intro rec hrec
    rw [hparse] at hrec
    rcases List.mem_cons.mp hrec with h1 | h1
    · rw [h1]
    · obtain ⟨row, _, hrow⟩ := List.mem_map.mp h1
      rw [← hrow]
      simp [projRow]
  · rw [hrun]
    simp [countRows_eq_length]

theorem export_file_shape_witness :
    scCols ≠ []
    ∧ (export_and_upload okMainEnv).written = some (exportCsv scCols scRows)
    ∧ parseCsv (exportCsv scCols scRows)
        = [["id".data, "name".data], ["1".data, "Alice".data],
           ["2".data, "Bob".data], ["3".data, "Smith, J.".data]] :=
  ⟨by decide,
   (export_file_shape okMainEnv "key-json" scCols scRows "ok" (by decide) rfl
      rfl rfl rfl rfl).1,
   by decide⟩

/-- Claim C3: for every result set (at least one schema column), parsing
the export file with the standard delimited-text reader reproduces every
original field value exactly — the header and each projected row come back
verbatim, including fields containing delimiters or newlines (which the
writer quotes and the reader unquotes). -/
theorem csv_roundtrip_export (cols : List Str) (rows : List (Str → Str))
    (h : cols ≠ []) :
    parseCsv (exportCsv cols rows) = cols :: rows.map (projRow cols) :=
  parse_exportCsv cols rows h

theorem csv_roundtrip_export_witness :
    scCols ≠ []
    ∧ parseCsv (exportCsv scCols scRows) = scCols :: scRows.map (projRow scCols)
    ∧ exportCsv scCols scRows
        = ("id,name\r\n1,Alice\r\n2,Bob\r\n3,\"Smith, J.\"\r\n").data :=
  ⟨by decide, csv_roundtrip_export scCols scRows (by decide), by decide⟩

/-- Claim C4: with `SERVICE_ACCOUNT_KEY` unset or empty, the invocation
returns status 500 with the configuration-error body and attempts neither
the warehouse query nor the HTTP POST. -/
theorem missing_key_no_network (env : MainEnv)
    (h : env.serviceAccountKey = none ∨ env.serviceAccountKey = some "") :
    (export_and_upload env).status = 500
    ∧ (export_and_upload env).body
        = errorBody env "SERVICE_ACCOUNT_KEY environment variable is not set"
    ∧ MEv.queryCall ∉ (export_and_upload env).events
    ∧ MEv.postCall ∉ (export_and_upload env).events := by
  have hk : keyPresent env.serviceAccountKey = false := by
    rcases h with h | h <;> rw [h] <;> rfl
  have hcond : ¬(keyPresent env.serviceAccountKey = true) := by
    rw [hk]
    simp
  unfold export_and_upload
  rw [if_neg hcond]
  refine ⟨rfl, rfl, ?_, ?_⟩ <;> simp

def noKeyEnv : MainEnv := { okMainEnv with serviceAccountKey := none }

theorem missing_key_no_network_witness :
    (noKeyEnv.serviceAccountKey = none ∨ noKeyEnv.serviceAccountKey = some "")
    ∧ (export_and_upload noKeyEnv).status = 500
    ∧ MEv.queryCall ∉ (export_and_upload noKeyEnv).events
    ∧ MEv.postCall ∉ (export_and_upload noKeyEnv).events :=
  ⟨Or.inl rfl,
   (missing_key_no_network noKeyEnv (Or.inl rfl)).1,
   (missing_key_no_network noKeyEnv (Or.inl rfl)).2.2.1,
   (missing_key_no_network noKeyEnv (Or.inl rfl)).2.2.2⟩

/-- Claim C8: when the POST returns status 200 the function returns the
success message embedding the row count with status 200; on any other
status it returns the failure message carrying the response body text with
status 500; in both cases the temp file is deleted immediately after the
POST attempt (the unlink event directly follows the post event). -/
theorem relay_response_handling (env : MainEnv) (k : String)
    (cols : List Str) (rows : List (Str → Str)) (code : Nat) (text : String)
    (hk : keyPresent env.serviceAccountKey = true)
    (hd : env.b64decode = Except.ok k)
    (hc : env.credsFromInfo = Except.ok ())
    (hq : env.queryRun = Except.ok (cols, rows))
    (hp : env.postResult = Except.ok (code, text)) :
    (code = 200 →
      (export_and_upload env).body
          = "Successfully exported " ++ toString rows.length
            ++ " rows and uploaded to RAMP Data Upload"
      ∧ (export_and_upload env).status = 200)
    ∧ (code ≠ 200 →
      (export_and_upload env).body = "Error uploading to Cloud Run: " ++ text
      ∧ (export_and_upload env).status = 500)
    ∧ (export_and_upload env).tempExists = false
    ∧ (export_and_upload env).events
        = [MEv.envRead, MEv.queryCall, MEv.tempCreate, MEv.postCall,
           MEv.tempUnlink] := by
  have hrun := export_run_ok env k cols rows code text hk hd hc hq hp
  by_cases h200 : code = 200
  · rw [if_pos h200] at hrun
    rw [hrun]
    refine ⟨fun _ => ⟨?_, rfl⟩, fun hne => absurd h200 hne, rfl, rfl⟩
    simp [countRows_eq_length]
  · rw [if_neg h200] at hrun
    rw [hrun]
    exact ⟨fun hx => absurd hx h200, fun _ => ⟨rfl, rfl⟩, rfl, rfl⟩

def relayFailEnv : MainEnv :=
  { okMainEnv with postResult := .ok (503, "Service Unavailable") }

theorem relay_response_handling_witness :
    relayFailEnv.postResult = Except.ok (503, "Service Unavailable")
    ∧ ((export_and_upload relayFailEnv).body
        = "Error uploading to Cloud Run: " ++ "Service Unavailable"
      ∧ (export_and_upload relayFailEnv).status = 500)
    ∧ (export_and_upload relayFailEnv).tempExists = false :=
  ⟨rfl,
   (relay_response_handling relayFailEnv "key-json" scCols scRows 503
      "Service Unavailable" rfl rfl rfl rfl rfl).2.1 (by decide),
   (relay_response_handling relayFailEnv "key-json" scCols scRows 503
      "Service Unavailable" rfl rfl rfl rfl rfl).2.2.1⟩

/-- Claim C5: when the remote directory change fails with an `IOError`
(directory missing or inaccessible), `upload_to_sftp` returns `False`,
`sftp.put` is never invoked, and the transport is closed before
returning. -/
theorem chdir_failure_aborts (env : SftpEnv) (a b c d m : String)
    (h1 : env.secretHost = Except.ok a) (h2 : env.secretUser = Except.ok b)
    (h3 : env.secretPass = Except.ok c) (h4 : env.secretDir = Except.ok d)
    (h5 : env.transportInit = Except.ok ())
    (h6 : env.transportConnect = Except.ok ())
    (h7 : env.sftpFromTransport = Except.ok ())
    (h8 : env.chdirRes = ChdirRes.ioErr m) :
    (upload_to_sftp env).1 = false
    ∧ SEv.putCall ∉ (upload_to_sftp env).2
    ∧ SEv.transportCloseEv ∈ (upload_to_sftp env).2 := by
  have hrun : upload_to_sftp env
      = (false, secretTrace ++ [.transportOpen, .transportConn, .sftpSession,
          .chdirCall, .transportCloseEv]) := by
    unfold upload_to_sftp
    rw [h1, h2, h3, h4, h5, h6, h7, h8]
  rw [hrun]
  refine ⟨rfl, ?_, ?_⟩ <;> decide

def chdirFailEnv : SftpEnv := { okSftpEnv with chdirRes := .ioErr "No such file" }

theorem chdir_failure_aborts_witness :
    chdirFailEnv.chdirRes = ChdirRes.ioErr "No such file"
    ∧ (upload_to_sftp chdirFailEnv).1 = false
    ∧ SEv.putCall ∉ (upload_to_sftp chdirFailEnv).2
    ∧ SEv.transportCloseEv ∈ (upload_to_sftp chdirFailEnv).2 :=
  ⟨rfl,
   (chdir_failure_aborts chdirFailEnv "sftp.example.com" "ramp" "pw"
      "/inbound" "No such file" rfl rfl rfl rfl rfl rfl rfl rfl).1,
   (chdir_failure_aborts chdirFailEnv "sftp.example.com" "ramp" "pw"
      "/inbound" "No such file" rfl rfl rfl rfl rfl rfl rfl rfl).2.1,
   (chdir_failure_aborts chdirFailEnv "sftp.example.com" "ramp" "pw"
      "/inbound" "No such file" rfl rfl rfl rfl rfl rfl rfl rfl).2.2⟩

/-- Claim C6: whenever `process_csv_upload` returns — success or error —
the local path `/tmp/<filename>` does not exist. -/
theorem tmp_removed_on_return (env : ProcEnv) (data : Payload) (fn : String)
    (r : UploadResult)
    (h : (process_csv_upload env data fn).result = Except.ok r) :
    (process_csv_upload env data fn).fileExists = false :=
  procTempDeleted env data fn r h

theorem tmp_removed_on_return_witness :
    (process_csv_upload okProcEnv (Payload.stream (Except.ok "col\n1".data))
        "data.csv").result
      = Except.ok ⟨"success", "File data.csv uploaded successfully"⟩
    ∧ (process_csv_upload okProcEnv (Payload.stream (Except.ok "col\n1".data))
        "data.csv").fileExists = false :=
  ⟨rfl,
   tmp_removed_on_return okProcEnv (Payload.stream (Except.ok "col\n1".data))
     "data.csv" ⟨"success", "File data.csv uploaded successfully"⟩ rfl⟩

/-- Claim C9: for the same byte content, the raw-bytes branch and the
stream branch of `process_csv_upload` write the same content and return
the same result. -/
theorem payload_branches_equiv (env : ProcEnv) (b : Str) (fn : String) :
    process_csv_upload env (Payload.bytes b) fn
      = process_csv_upload env (Payload.stream (Except.ok b)) fn := by
  simp only [process_csv_upload]

/-- Claim C10: once the secrets are fetched and the transport is opened
and connected, a failure other than a directory-change `IOError` — SFTP
session creation raising, `chdir` raising a non-`IOError`, or `sftp.put`
raising — makes `upload_to_sftp` return `False` without closing the SFTP
session or the transport. -/
theorem late_failure_connection_left_open (env : SftpEnv) (a b c d : String)
    (h1 : env.secretHost = Except.ok a) (h2 : env.secretUser = Except.ok b)
    (h3 : env.secretPass = Except.ok c) (h4 : env.secretDir = Except.ok d)
    (h5 : env.transportInit = Except.ok ())
    (h6 : env.transportConnect = Except.ok ())
    (hfail : (∃ e, env.sftpFromTransport = Except.error e)
      ∨ (env.sftpFromTransport = Except.ok ()
          ∧ ∃ e, env.chdirRes = ChdirRes.otherErr e)
      ∨ (env.sftpFromTransport = Except.ok () ∧ env.chdirRes = ChdirRes.ok
          ∧ ∃ e, env.putRes = Except.error e)) :
    (upload_to_sftp env).1 = false
    ∧ SEv.sftpCloseEv ∉ (upload_to_sftp env).2
    ∧ SEv.transportCloseEv ∉ (upload_to_sftp env).2 := by
  rcases hfail with ⟨e, he⟩ | ⟨h7, e, he⟩ | ⟨h7, h8, e, he⟩
  · have hrun : upload_to_sftp env
        = (false, secretTrace ++ [.transportOpen, .transportConn,
            .sftpSession]) := by
      unfold upload_to_sftp
      rw [h1, h2, h3, h4, h5, h6, he]
    rw [hrun]
    refine ⟨rfl, ?_, ?_⟩ <;> decide
  · have hrun : upload_to_sftp env
        = (false, secretTrace ++ [.transportOpen, .transportConn,
            .sftpSession, .chdirCall]) := by
      unfold upload_to_sftp
      rw [h1, h2, h3, h4, h5, h6, h7, he]
    rw [hrun]
    refine ⟨rfl, ?_, ?_⟩ <;> decide
  · have hrun : upload_to_sftp env
        = (false, secretTrace ++ [.transportOpen, .transportConn,
            .sftpSession, .chdirCall, .putCall]) := by
      unfold upload_to_sftp
      rw [h1, h2, h3, h4, h5, h6, h7, h8, he]
    rw [hrun]
    refine ⟨rfl, ?_, ?_⟩ <;> decide

def putFailEnv : SftpEnv := { okSftpEnv with putRes := .error "upload interrupted" }

theorem late_failure_connection_left_open_witness :
    putFailEnv.putRes = Except.error "upload interrupted"
    ∧ (upload_to_sftp putFailEnv).1 = false
    ∧ SEv.sftpCloseEv ∉ (upload_to_sftp putFailEnv).2
    ∧ SEv.transportCloseEv ∉ (upload_to_sftp putFailEnv).2 :=
  ⟨rfl,
   (late_failure_connection_left_open putFailEnv "sftp.example.com" "ramp"
      "pw" "/inbound" rfl rfl rfl rfl rfl rfl
      (Or.inr (Or.inr ⟨rfl, rfl, "upload interrupted", rfl⟩))).1,
   (late_failure_connection_left_open putFailEnv "sftp.example.com" "ramp"
      "pw" "/inbound" rfl rfl rfl rfl rfl rfl
      (Or.inr (Or.inr ⟨rfl, rfl, "upload interrupted", rfl⟩))).2.1,
   (late_failure_connection_left_open putFailEnv "sftp.example.com" "ramp"
      "pw" "/inbound" rfl rfl rfl rfl rfl rfl
      (Or.inr (Or.inr ⟨rfl, rfl, "upload interrupted", rfl⟩))).2.2⟩

/-- Claim C7, counterexample.  When the cleanup `os.remove` on the normal
path raises and the `os.remove` inside the `except` handler raises too,
the second exception propagates out of `process_csv_upload`: the function
does raise past its own boundary. -/
theorem cleanup_double_fault_cex :
    (process_csv_upload doubleFaultEnv (Payload.bytes "x".data)
        "report.csv").result
      = Except.error "remove failed again" := by
  rfl

theorem handleExn_ok (env : ProcEnv) (e : String) (fex : Bool)
    (w : Option Str) (h : env.removeSecond = Except.ok ()) :
    (handleExn env e fex w).result = Except.ok ⟨"error", e⟩ := by
  cases fex with
  | false => rfl
  | true =>
    unfold handleExn
    rw [if_pos rfl, h]

theorem afterWrite_result (env : ProcEnv) (fn : String) (b : Str)
    (h : env.removeSecond = Except.ok ()) :
    ∃ r : UploadResult,
      (afterWrite env fn b).result = Except.ok r
      ∧ (r.status = "success" ∨ r.status = "error")
      ∧ (∀ e, env.removeFirst = Except.error e →
          r.status = "error" ∧ r.message = e) := by
  simp only [afterWrite]
  cases hrf : env.removeFirst with
  | error e =>
    refine ⟨⟨"error", e⟩, handleExn_ok env e true (some b) h, Or.inr rfl, ?_⟩
    intro e2 he2
    injection he2 with hh
    exact ⟨rfl, hh⟩
  | ok u =>
    by_cases hs : (upload_to_sftp env.sftp).1 = true
    · rw [if_pos hs]
      refine ⟨_, rfl, Or.inl rfl, ?_⟩
      intro e2 he2
      exact absurd he2 (by simp)
    · rw [if_neg hs]
      refine ⟨_, rfl, Or.inr rfl, ?_⟩
      intro e2 he2
      exact absurd he2 (by simp)

/-- Claim C7 (amended): provided the temp-file removal inside the
exception handler does not itself raise, `process_csv_upload` never
raises past its boundary — it returns a structured
`{status ∈ {success, error}, message}` result, and whenever an exception
reaches its handler, the result's status is `error` and its message is the
caught exception's message. -/
theorem structured_result_amended (env : ProcEnv) (data : Payload)
    (fn : String) (h : env.removeSecond = Except.ok ()) :
    ∃ r : UploadResult,
      (process_csv_upload env data fn).result = Except.ok r
      ∧ (r.status = "success" ∨ r.status = "error")
      ∧ (∀ e, raisedMsg env data = some e →
          r.status = "error" ∧ r.message = e) := by
  simp only [process_csv_upload, raisedMsg]
  cases ho : env.openRes with
  | error e =>
    refine ⟨⟨"error", e⟩, handleExn_ok env e false none h, Or.inr rfl, ?_⟩
    intro e2 he2
    injection he2 with hh
    exact ⟨rfl, hh⟩
  | ok u =>
    cases data with
    | bytes b =>
      cases hw : env.writeRes with
      | error e =>
        refine ⟨⟨"error", e⟩, handleExn_ok env e true (some []) h,
          Or.inr rfl, ?_⟩
        intro e2 he2
        injection he2 with hh
        exact ⟨rfl, hh⟩
      | ok u2 =>
        obtain ⟨r, hr1, hr2, hr3⟩ := afterWrite_result env fn b h
        refine ⟨r, hr1, hr2, ?_⟩
        intro e2 he2
        cases hrf : env.removeFirst with
        | error e3 =>
          rw [hrf] at he2
          simp only [Option.some.injEq] at he2
          exact he2 ▸ hr3 e3 hrf
        | ok u3 =>
          rw [hrf] at he2
          simp at he2
    | stream rd =>
      cases rd with
      | error e =>
        refine ⟨⟨"error", e⟩, handleExn_ok env e true (some []) h,
          Or.inr rfl, ?_⟩
        intro e2 he2
        injection he2 with hh
        exact ⟨rfl, hh⟩
      | ok b =>
        cases hw : env.writeRes with
        | error e =>
          refine ⟨⟨"error", e⟩, handleExn_ok env e true (some []) h,
            Or.inr rfl, ?_⟩
          intro e2 he2
          injection he2 with hh
          exact ⟨rfl, hh⟩
        | ok u2 =>
          obtain ⟨r, hr1, hr2, hr3⟩ := afterWrite_result env fn b h
          refine ⟨r, hr1, hr2, ?_⟩
          intro e2 he2
          cases hrf : env.removeFirst with
          | error e3 =>
            rw [hrf] at he2
            simp only [Option.some.injEq] at he2
            exact he2 ▸ hr3 e3 hrf
          | ok u3 =>
            rw [hrf] at he2
            simp at he2

theorem structured_result_amended_witness :
    okProcEnv.removeSecond = Except.ok ()
    ∧ ∃ r : UploadResult,
        (process_csv_upload okProcEnv
            (Payload.stream (Except.error "read failed")) "f.csv").result
          = Except.ok r
        ∧ (r.status = "success" ∨ r.status = "error")
        ∧ (∀ e, raisedMsg okProcEnv
              (Payload.stream (Except.error "read failed")) = some e →
            r.status = "error" ∧ r.message = e) :=
  ⟨rfl, structured_result_amended okProcEnv
    (Payload.stream (Except.error "read failed")) "f.csv" rfl⟩
